import Mathlib

/-!
Verification of the Malad Utsav automation scripts.

Each Python script is shallowly embedded: pandas dataframes become lists of
rows of optional strings (a missing value, NaN, is `none`), pure arithmetic on
image geometry becomes rational arithmetic with explicit floors, and the
control flow of each `main` becomes a total Lean function over an explicit
environment (which files exist, which per-item operations fail).
-/

namespace Malad

/-- A tabular cell as pandas sees it: `none` models a missing value (NaN). -/
abbrev Cell := Option String

/-- Models pandas `astype(str)` (and f-string interpolation) on one cell: a
missing value renders as the string "nan". -/
def astype_str : Cell → String
  | none => "nan"
  | some s => s

/-- Models Python `str.strip()`: remove leading and trailing whitespace. -/
def py_strip (s : String) : String :=
  ⟨((s.data.dropWhile Char.isWhitespace).reverse.dropWhile Char.isWhitespace).reverse⟩

/-- Lower-case one character; all data these scripts lower-case is ASCII. -/
def lower_char (c : Char) : Char :=
  if 65 ≤ c.toNat && c.toNat ≤ 90 then Char.ofNat (c.toNat + 32) else c

/-- Models Python `str.lower()`. -/
def py_lower (s : String) : String := ⟨s.data.map lower_char⟩

/-- Codepoint-lexicographic strict comparison of character lists, the order
Python uses to compare strings. -/
def chars_lt : List Char → List Char → Bool
  | [], [] => false
  | [], _ :: _ => true
  | _ :: _, [] => false
  | a :: as, b :: bs =>
    if a.toNat < b.toNat then true
    else if b.toNat < a.toNat then false
    else chars_lt as bs

/-- Python string `<`. -/
def str_lt (a b : String) : Bool := chars_lt a.data b.data

/-- Python string `<=`. -/
def str_le (a b : String) : Bool := !(str_lt b a)

/-- Models Python truthiness of an optional string: `None` and `""` are falsy. -/
def py_truthy : Option String → Bool
  | none => false
  | some s => s != ""

/-- A dataframe: column headers and rows of cells (row major). -/
structure DataFrame where
  headers : List String
  rows : List (List Cell)

/-- Cell of a row under a column label: pandas label lookup, first matching
header; a row shorter than the header list reads as missing (pandas pads short
CSV rows with NaN). -/
def get_cell (headers : List String) (row : List Cell) (label : String) : Cell :=
  match headers.findIdx? (fun c => c == label) with
  | some i => row.getD i none
  | none => none

/-! ### generate_parentlist_html.py -/

/-- Aliases accepted for the parent-name column in `normalize_and_sort`. -/
def parent_aliases : List String := ["parent name", "parent", "parent_name"]

/-- Aliases accepted for the student-name column in `normalize_and_sort`. -/
def student_aliases : List String := ["student name", "student", "student_name"]

/-- Aliases accepted for the timestamp column in `normalize_and_sort`. -/
def time_aliases : List String := ["timestamp", "submitted on", "submittedon", "submitted_on"]

/-- Models the dict built by `normalize_and_sort`, mapping each header lowered
and stripped to the original header; a later duplicate key overwrites an
earlier one, hence the reverse search. -/
def cols_lookup (headers : List String) (key : String) : Option String :=
  headers.reverse.find? (fun c => py_strip (py_lower c) == key)

/-- Models the inner `find_col`: the first alias whose lowered form is a key of
the header dict selects the corresponding original header. -/
def find_col (headers : List String) (possible : List String) : Option String :=
  possible.findSome? (fun p => cols_lookup headers (py_lower p))

/-- One row restricted to the three canonical columns that
`normalize_and_sort` selects. -/
structure NSRow where
  parent : Cell
  student : Cell
  submitted : Cell
deriving DecidableEq

/-- Projection of one raw row onto the canonical columns: a column whose fuzzy
lookup failed was just created with every cell the empty string, so the
projection reads the empty string there. -/
def project_row (df : DataFrame) (row : List Cell) : NSRow :=
  { parent :=
      match find_col df.headers parent_aliases with
      | some c => get_cell df.headers row c
      | none => some ""
    student :=
      match find_col df.headers student_aliases with
      | some c => get_cell df.headers row c
      | none => some ""
    submitted :=
      match find_col df.headers time_aliases with
      | some c => get_cell df.headers row c
      | none => some "" }

/-- Models the row predicate of `dropna(how="all")` on the three selected
columns: true when every cell is missing. -/
def all_na (r : NSRow) : Bool := r.parent.isNone && r.student.isNone && r.submitted.isNone

/-- Models the boolean mask that keeps rows where the stringified parent or
student strips to a nonempty string. Note that a missing cell stringifies to
"nan", which is nonempty. -/
def mask_keep (r : NSRow) : Bool :=
  (py_strip (astype_str r.parent) != "") || (py_strip (astype_str r.student) != "")

/-- Rows surviving both row filters of `normalize_and_sort`, in input order. -/
def kept_rows (df : DataFrame) : List NSRow :=
  ((df.rows.map (project_row df)).filter (fun r => !all_na r)).filter mask_keep

/-- Comparator used for the second sort column: pandas places missing values
last (`na_position` defaults to "last"). -/
def cellLE : Cell → Cell → Bool
  | none, none => true
  | some _, none => true
  | none, some _ => false
  | some a, some b => str_le a b

/-- Comparator realized by `sort_values` on the pair Parent_sort, Student Name:
primary key the lower-cased stringified parent, ties broken by the raw student
cell (codepoint order, case sensitive). -/
def rowLE (a b : NSRow) : Bool :=
  let ka := py_lower (astype_str a.parent)
  let kb := py_lower (astype_str b.parent)
  if ka = kb then cellLE a.student b.student else str_lt ka kb

/-- The sort relation of `sort_values` as a proposition. -/
def row_le (a b : NSRow) : Prop := rowLE a b = true

instance : DecidableRel row_le := fun a b => instDecidableEqBool (rowLE a b) true

/-- Result of `normalize_and_sort`: the canonical headers with the inserted
sequence column, and each surviving row tagged with its 1-based sequence
number. -/
structure NormalizedDF where
  headers : List String
  rows : List (Nat × NSRow)

/-- Models `normalize_and_sort`: fuzzy column selection, blank-row filtering,
sorting by the lower-cased parent key with the raw student cell as tie break,
then insertion of the 1-based "No" column at position 0. pandas applies an
unstable quicksort, whose tie order is unspecified; `insertionSort` realizes
the same ordering by the same key. -/
def normalize_and_sort (df : DataFrame) : NormalizedDF :=
  { headers := "No" :: ["Parent Name", "Student Name", "Submitted On"],
    rows := (List.insertionSort row_le (kept_rows df)).enumFrom 1 }

/-- One step of `esc`. The three sequential `replace` calls of the source
(ampersand first, then the angle brackets) equal one character-wise pass,
because no replacement output contains a character replaced later. -/
def esc_char (c : Char) : List Char :=
  if c = '&' then "&amp;".data
  else if c = '<' then "&lt;".data
  else if c = '>' then "&gt;".data
  else [c]

/-- Models `esc`: HTML-escape ampersand and the angle brackets. -/
def esc (s : String) : String := ⟨(s.data.map esc_char).flatten⟩

/-- One table body row emitted by `build_main_html` for a sequence number and a
normalized row; the three data cells pass through `esc`. -/
def build_row (n : Nat) (r : NSRow) : String :=
  "<tr>" ++ "<td class=\"sequence-number\">" ++ toString n ++ "</td>"
    ++ "<td>" ++ esc (astype_str r.parent) ++ "</td>"
    ++ "<td>" ++ esc (astype_str r.student) ++ "</td>"
    ++ "<td>" ++ esc (astype_str r.submitted) ++ "</td>" ++ "</tr>"

/-- The list of `<tr>` strings in the table body of the generated HTML. -/
def build_main_rows (ndf : NormalizedDF) : List String :=
  ndf.rows.map (fun p => build_row p.1 p.2)

/-- A row the script actually drops: all three selected cells missing, or
parent and student both present and consisting only of whitespace. -/
def row_blank (r : NSRow) : Bool :=
  all_na r ||
    (match r.parent, r.student with
     | some p, some s => (py_strip p == "") && (py_strip s == "")
     | _, _ => false)

/-- Written from the words of the spec for C3: a value is empty when it is
missing or strips to the empty string. -/
def spec_cell_empty : Cell → Bool
  | none => true
  | some s => py_strip s == ""

/-- Written from the words of the spec for C3: a row is blank when it is fully
empty or both name cells are empty after stripping whitespace. -/
def spec_row_blank (r : NSRow) : Bool :=
  all_na r || (spec_cell_empty r.parent && spec_cell_empty r.student)

/-- Written from the words of the spec for C2: rows ascending, case
insensitively, by parent name and then by student name. -/
def spec_rowLE (a b : NSRow) : Bool :=
  let ka := py_lower (astype_str a.parent)
  let kb := py_lower (astype_str b.parent)
  if ka = kb then str_le (py_lower (astype_str a.student)) (py_lower (astype_str b.student))
  else str_lt ka kb

/-! ### process_photos.py -/

/-- Passport canvas width in pixels (35 mm at 300 DPI). -/
def PASSPORT_WIDTH : Nat := 413

/-- Passport canvas height in pixels (45 mm at 300 DPI). -/
def PASSPORT_HEIGHT : Nat := 531

/-- Fraction of the canvas height the face should occupy. -/
def FACE_PERCENT : ℚ := 6 / 10

/-- Models desired_face_height, the Python int() truncation of
PASSPORT_HEIGHT * FACE_PERCENT; the product is nonnegative so int() is floor. -/
def desired_face_height : Nat := (⌊(PASSPORT_HEIGHT : ℚ) * FACE_PERCENT⌋).toNat

/-- Margin added by add_stationery_border on every side of the photo. -/
def border_width : Nat := 12

/-- Pixel dimensions of an image. -/
structure ImgSize where
  width : Nat
  height : Nat
deriving DecidableEq

/-- Models add_stationery_border on the image geometry: the photo is pasted
unchanged onto a white canvas enlarged by the border width on every side, and
the border lines drawn afterwards do not change the size. -/
def add_stationery_border (size : ImgSize) : ImgSize :=
  { width := size.width + 2 * border_width, height := size.height + 2 * border_width }

/-- make_background_white whitens near-white pixels in place: geometry unchanged. -/
def make_background_white (size : ImgSize) : ImgSize := size

/-- A face bounding box as returned by detect_face (pixel units). -/
structure FaceRect where
  x : Nat
  y : Nat
  w : Nat
  h : Nat
deriving DecidableEq

/-- The quantities process_image computes on its success path. -/
structure ProcResult where
  scale : ℚ
  new_width : ℤ
  new_height : ℤ
  face_x : ℤ
  face_y : ℤ
  paste_x : ℤ
  paste_y : ℤ
  saved : ImgSize
deriving DecidableEq

/-- Models process_image. Face detection is an input: the box the OpenCV
cascades returned for the photo, or `none`. The result is the geometry of the
computation and the size of the image written to the output path; `none` means
process_image returned False and wrote nothing (unreadable input is modelled
as no call, a missing face returns before any write, and a zero face height
would raise ZeroDivisionError into the broad except which also returns False
before any write). All int() casts here truncate nonnegative values, hence
floor. -/
def process_image (img : ImgSize) (face : Option FaceRect) : Option ProcResult :=
  match face with
  | none => none
  | some f =>
    if f.h = 0 then none
    else
      let face_center_x : Nat := f.x + f.w / 2
      let face_center_y : Nat := f.y + f.h / 2
      let scale : ℚ := (desired_face_height : ℚ) / (f.h : ℚ)
      let new_width : ℤ := ⌊(img.width : ℚ) * scale⌋
      let new_height : ℤ := ⌊(img.height : ℚ) * scale⌋
      let face_x : ℤ := ⌊(face_center_x : ℚ) * scale⌋
      let face_y : ℤ := ⌊(face_center_y : ℚ) * scale⌋
      let paste_x : ℤ := (PASSPORT_WIDTH : ℤ) / 2 - face_x
      let paste_y : ℤ := (PASSPORT_HEIGHT : ℤ) / 2 - face_y
      let canvas : ImgSize := { width := PASSPORT_WIDTH, height := PASSPORT_HEIGHT }
      some
        { scale := scale, new_width := new_width, new_height := new_height,
          face_x := face_x, face_y := face_y, paste_x := paste_x, paste_y := paste_y,
          saved := add_stationery_border (make_background_white canvas) }

/-- File extensions process_photos.main treats as images. -/
def image_exts : List String := [".png", ".jpg", ".jpeg", ".webp"]

/-- Python str.endswith for one candidate suffix. -/
def ends_with (s suffix : String) : Bool :=
  s.data.reverse.take suffix.data.length == suffix.data.reverse

/-- Models filename.lower().endswith((".png", ".jpg", ".jpeg", ".webp")). -/
def is_image_file (name : String) : Bool :=
  image_exts.any (fun ext => ends_with (py_lower name) ext)

/-- Models process_photos.main: every file in the directory listing with an
image extension is attempted; `ok name` is whether process_image returned True
for that file (process_image catches every exception internally and returns
False, so the loop body never raises). Returns (success_count, error_count). -/
def photo_step (ok : String → Bool) (acc : Nat × Nat) (name : String) : Nat × Nat :=
  if is_image_file name then
    if ok name then (acc.1 + 1, acc.2) else (acc.1, acc.2 + 1)
  else acc

def process_photos_main (files : List String) (ok : String → Bool) : Nat × Nat :=
  files.foldl (photo_step ok) (0, 0)

/-! ### student_ppt.py -/

/-- Fixed input CSV path of student_ppt. -/
def CSV_FILE : String := "student_ppt_csv.csv"

/-- Fixed base output path of student_ppt. -/
def OUTPUT_FILE : String := "Students_Presentation.pptx"

/-- Models the rename in read_student_data: every column labelled
"Student Name" becomes "Name" when such a column exists. -/
def rename_student_name (headers : List String) : List String :=
  if headers.contains "Student Name" then
    headers.map (fun c => if c = "Student Name" then "Name" else c)
  else headers

/-- The Name cell of one row after the rename, by first-matching-label
lookup; this is what `student.get` returns when the Name label is unique, and
`none` when it is absent (the `get` default). With duplicate Name labels the
lookup is never consulted: `create_student_slide_outcome` raises first. -/
def student_name (df : DataFrame) (row : List Cell) : Cell :=
  get_cell (rename_student_name df.headers) row "Name"

/-- How many columns carry the label Name after the rename. A CSV holding
both a Student Name and a Name column leaves two such labels. -/
def name_label_count (df : DataFrame) : Nat :=
  (rename_student_name df.headers).count "Name"

/-- What one call of create_student_slide does to the deck. -/
inductive SlideOutcome where
  /-- Missing name: the early return before add_slide; logs the skip warning. -/
  | skipped
  /-- add_slide ran: one slide in the deck, even if a later step raises. -/
  | added
  /-- Duplicate Name labels: `student.get` returns a two-element Series and
  pd.isna raises ValueError before add_slide; no slide, no skip warning, the
  caller's broad except prints an error instead. -/
  | raisedBeforeAdd
deriving DecidableEq

/-- Models create_student_slide at the granularity of slides added to the
deck. With a unique (or absent) Name label, a missing name returns before
prs.slides.add_slide, adding nothing and logging a skip; otherwise add_slide
is the first statement after the check, so exactly one slide is added even
when a later step for that student raises. With duplicate Name labels the
pd.isna test itself raises before add_slide. -/
def create_student_slide_outcome (df : DataFrame) (row : List Cell) : SlideOutcome :=
  if 2 ≤ name_label_count df then .raisedBeforeAdd
  else if (student_name df row).isNone then .skipped
  else .added

/-- Models the loop of create_presentation: slides added to the saved deck,
skip warnings logged, and success_count, given which rows raise after their
slide is added. -/
def slide_step (df : DataFrame) (raises : List Cell → Bool)
    (acc : Nat × Nat × Nat) (row : List Cell) : Nat × Nat × Nat :=
  match create_student_slide_outcome df row with
  | .raisedBeforeAdd => (acc.1, acc.2.1, acc.2.2)
  | .skipped => (acc.1, acc.2.1 + 1, acc.2.2 + 1)
  | .added => (acc.1 + 1, acc.2.1, acc.2.2 + (if raises row then 0 else 1))

def create_presentation_counts (df : DataFrame) (raises : List Cell → Bool) : Nat × Nat × Nat :=
  df.rows.foldl (slide_step df raises) (0, 0, 0)

/-- Outcome of a script main: an explicit sys.exit, or falling off the end. -/
inductive MainResult where
  | sysExit (code : Nat)
  | normalReturn
deriving DecidableEq

/-- Process exit status: sys.exit(c) exits with c, falling off main exits 0. -/
def exit_status : MainResult → Nat
  | .sysExit c => c
  | .normalReturn => 0

/-- Whether the outcome went through sys.exit. -/
def via_sys_exit : MainResult → Bool
  | .sysExit _ => true
  | .normalReturn => false

/-- Trace of student_ppt.main. -/
structure StudentPptTrace where
  result : MainResult
  warned_missing_csv : Bool
  warned_missing_photos : Bool
  ran_create_presentation : Bool
deriving DecidableEq

/-- Models student_ppt.main: a missing CSV file or photos folder prints a
warning and returns from main with a plain return, never sys.exit; otherwise
create_presentation runs. -/
def student_ppt_main (csv_exists photos_exists : Bool) : StudentPptTrace :=
  if !csv_exists then
    { result := .normalReturn, warned_missing_csv := true,
      warned_missing_photos := false, ran_create_presentation := false }
  else if !photos_exists then
    { result := .normalReturn, warned_missing_csv := false,
      warned_missing_photos := true, ran_create_presentation := false }
  else
    { result := .normalReturn, warned_missing_csv := false,
      warned_missing_photos := false, ran_create_presentation := true }

/-- Index of the last occurrence of a character in a character list. -/
def last_idx_of (cs : List Char) (c : Char) : Option Nat :=
  match cs.reverse.findIdx? (fun d => d == c) with
  | none => none
  | some j => some (cs.length - 1 - j)

/-- Models os.path.splitext: split at the last dot when it lies after the last
path separator and at least one character between them is not a dot (leading
dots of a basename never start an extension). -/
def splitext (p : String) : String × String :=
  let cs := p.data
  let sep_idx : Int := match last_idx_of cs '/' with | none => -1 | some i => (i : Int)
  match last_idx_of cs '.' with
  | none => (p, "")
  | some dot_idx =>
    if sep_idx < (dot_idx : Int) &&
        ((cs.drop (sep_idx + 1).toNat).take (dot_idx - (sep_idx + 1).toNat)).any
          (fun d => d != '.')
    then (⟨cs.take dot_idx⟩, ⟨cs.drop dot_idx⟩)
    else (p, "")

/-- Models the timestamped save name of create_presentation: the base and
extension of OUTPUT_FILE with the run timestamp between them. -/
def student_ppt_save_name (timestamp : String) : String :=
  (splitext OUTPUT_FILE).1 ++ "_" ++ timestamp ++ (splitext OUTPUT_FILE).2

/-- Default output path of generate_searchable_html. -/
def searchable_default_output : String := "searchable_list_nowrap.html"

/-- Default output path of generate_parentlist_html. -/
def parentlist_default_output : String := "ParentList_Marksheet.html"

/-! ### generate_parentlist_html.py command line -/

/-- Environment of generate_parentlist_html.main: arguments after the
environment-variable fallback, plus the outcomes of the filesystem and
network probes the code makes. -/
structure ParentlistArgs where
  csv_file : Option String
  sheet_id : Option String
  gid : Option String
  csv_file_exists : Bool
  csv_read_ok : Bool
  fetch_ok : Bool

/-- Models generate_parentlist_html.main up to the point the dataframe is in
hand; the remainder of main only writes the output files. -/
def parentlist_main (a : ParentlistArgs) : MainResult :=
  if py_truthy a.csv_file then
    if !a.csv_file_exists then .sysExit 1
    else if !a.csv_read_ok then .sysExit 2
    else .normalReturn
  else
    if !(py_truthy a.sheet_id) || !(py_truthy a.gid) then .sysExit 1
    else if !a.fetch_ok then .sysExit 2
    else .normalReturn

/-! ### generate_certificates.py -/

/-- Models the per-student loop of generate_certificates.main. The output
path f-string reads the Name value outside the inner try, so a missing Name
column raises KeyError there and the outer except aborts the whole batch;
with the column present the inner try confines a create_certificate failure
(modelled by `fails` on the row index) to that student. Returns the names a
certificate was created for, the failed row indices, and whether the batch
aborted. -/
def cert_rows (headers : List String) (fails : Nat → Bool) :
    List (Nat × List Cell) → List String × List Nat × Bool
  | [] => ([], [], false)
  | (i, row) :: rest =>
    if headers.contains "Name" then
      let name := astype_str (get_cell headers row "Name")
      let res := cert_rows headers fails rest
      if fails i then (res.1, i :: res.2.1, res.2.2)
      else (name :: res.1, res.2.1, res.2.2)
    else ([], [], true)

/-- Models generate_certificates.main over the rows of the input CSV. -/
def certificates_main (df : DataFrame) (fails : Nat → Bool) :
    List String × List Nat × Bool :=
  cert_rows df.headers fails df.rows.enum

/-! ### generate_searchable_html.py -/

/-- Models the header cleanup of generate_html: every header stripped. -/
def strip_headers (headers : List String) : List String := headers.map py_strip

/-- Models df.insert(0, "No", range(1, len(df) + 1)) after the cleanup. -/
def insert_no (df : DataFrame) : DataFrame :=
  { headers := "No" :: strip_headers df.headers,
    rows := df.rows.enum.map (fun p => some (toString (p.1 + 1)) :: p.2) }

/-- One emitted table body row: td cells joined over all columns in order,
each value interpolated by the f-string with no escaping. -/
def render_row (headers : List String) (row : List Cell) : String :=
  "<tr>" ++ String.join (headers.map (fun c => "<td>" ++ astype_str (get_cell headers row c) ++ "</td>")) ++ "</tr>"

/-- Models generate_html at the level of the emitted table body: one tr string
per dataframe row, in dataframe order, nothing sorted or dropped. -/
def generate_html_rows (df : DataFrame) : List String :=
  (insert_no df).rows.map (render_row (insert_no df).headers)

/-! ### Order facts about the sort comparator -/

theorem char_eq_of_toNat_eq {a b : Char} (h : a.toNat = b.toNat) : a = b := by
  have : a.val = b.val := by
    apply UInt32.toNat.inj
    exact h
  exact Char.eq_of_val_eq this

theorem chars_lt_trans :
    ∀ as bs cs : List Char, chars_lt as bs = true → chars_lt bs cs = true → chars_lt as cs = true := by
  intro as
  induction as with
  | nil =>
    intro bs cs h1 h2
    cases bs with
    | nil => simp [chars_lt] at h1
    | cons b bs =>
      cases cs with
      | nil => simp [chars_lt] at h2
      | cons c cs => simp [chars_lt]
  | cons a as ih =>
    intro bs cs h1 h2
    cases bs with
    | nil => simp [chars_lt] at h1
    | cons b bs =>
      cases cs with
      | nil => simp [chars_lt] at h2
      | cons c cs =>
        rcases Nat.lt_trichotomy a.toNat b.toNat with hab | hab | hab <;>
          rcases Nat.lt_trichotomy b.toNat c.toNat with hbc | hbc | hbc
        · simp only [chars_lt]
          rw [if_pos (by omega)]
        · simp only [chars_lt]
          rw [if_pos (by omega)]
        · exfalso
          simp only [chars_lt] at h2
          rw [if_neg (by omega), if_pos hbc] at h2
          exact Bool.false_ne_true h2
        · simp only [chars_lt]
          rw [if_pos (by omega)]
        · simp only [chars_lt] at h1 h2 ⊢
          rw [if_neg (by omega), if_neg (by omega)] at h1
          rw [if_neg (by omega), if_neg (by omega)] at h2
          rw [if_neg (by omega), if_neg (by omega)]
          exact ih bs cs h1 h2
        · exfalso
          simp only [chars_lt] at h2
          rw [if_neg (by omega), if_pos hbc] at h2
          exact Bool.false_ne_true h2
        · exfalso
          simp only [chars_lt] at h1
          rw [if_neg (by omega), if_pos hab] at h1
          exact Bool.false_ne_true h1
        · exfalso
          simp only [chars_lt] at h1
          rw [if_neg (by omega), if_pos hab] at h1
          exact Bool.false_ne_true h1
        · exfalso
          simp only [chars_lt] at h1
          rw [if_neg (by omega), if_pos hab] at h1
          exact Bool.false_ne_true h1

theorem chars_lt_asymm :
    ∀ as bs : List Char, chars_lt as bs = true → chars_lt bs as = false := by
  intro as
  induction as with
  | nil =>
    intro bs h1
    cases bs with
    | nil => simp [chars_lt] at h1
    | cons b bs => simp [chars_lt]
  | cons a as ih =>
    intro bs h1
    cases bs with
    | nil => simp [chars_lt] at h1
    | cons b bs =>
      rcases Nat.lt_trichotomy a.toNat b.toNat with hab | hab | hab
      · simp only [chars_lt]
        rw [if_neg (by omega), if_pos hab]
      · simp only [chars_lt] at h1 ⊢
        rw [if_neg (by omega), if_neg (by omega)] at h1
        rw [if_neg (by omega), if_neg (by omega)]
        exact ih bs h1
      · exfalso
        simp only [chars_lt] at h1
        rw [if_neg (by omega), if_pos hab] at h1
        exact Bool.false_ne_true h1

theorem chars_lt_conn :
    ∀ as bs : List Char, chars_lt as bs = false → chars_lt bs as = false → as = bs := by
  intro as
  induction as with
  | nil =>
    intro bs h1 h2
    cases bs with
    | nil => rfl
    | cons b bs => simp [chars_lt] at h1
  | cons a as ih =>
    intro bs h1 h2
    cases bs with
    | nil => simp [chars_lt] at h2
    | cons b bs =>
      rcases Nat.lt_trichotomy a.toNat b.toNat with hab | hab | hab
      · exfalso
        simp only [chars_lt] at h1
        rw [if_pos hab] at h1
        exact absurd h1 (by decide)
      · simp only [chars_lt] at h1 h2
        rw [if_neg (by omega), if_neg (by omega)] at h1
        rw [if_neg (by omega), if_neg (by omega)] at h2
        rw [char_eq_of_toNat_eq hab, ih bs h1 h2]
      · exfalso
        simp only [chars_lt] at h2
        rw [if_pos hab] at h2
        exact absurd h2 (by decide)

theorem str_eq_of_data_eq {a b : String} (h : a.data = b.data) : a = b := by
  cases a
  cases b
  exact congrArg String.mk h

theorem str_le_trans {a b c : String} (h1 : str_le a b) (h2 : str_le b c) : str_le a c := by
  simp only [str_le, str_lt, Bool.not_eq_true', Bool.not_eq_false] at h1 h2 ⊢
  by_contra hca
  rw [Bool.not_eq_false] at hca
  rcases hbc : chars_lt b.data c.data with _ | _
  · rcases hcb : chars_lt c.data b.data with _ | _
    · have hbceq : b = c := str_eq_of_data_eq (chars_lt_conn _ _ hbc hcb)
      subst hbceq
      rw [h1] at hca
      exact Bool.false_ne_true hca
    · rw [h2] at hcb
      exact Bool.false_ne_true hcb
  · have hba : chars_lt b.data a.data = true := chars_lt_trans _ _ _ hbc hca
    rw [h1] at hba
    exact Bool.false_ne_true hba

theorem str_le_total (a b : String) : str_le a b || str_le b a := by
  simp only [str_le]
  rcases h : chars_lt b.data a.data with _ | _
  · simp [str_lt, h]
  · have := chars_lt_asymm _ _ h
    simp [str_lt, this]

theorem cellLE_trans {a b c : Cell} (h1 : cellLE a b) (h2 : cellLE b c) : cellLE a c := by
  match a, b, c with
  | none, none, none => rfl
  | none, some _, none => rfl
  | some _, none, none => rfl
  | some _, some _, none => rfl
  | none, some _, some _ => simp [cellLE] at h1
  | some _, none, some _ => simp [cellLE] at h2
  | none, none, some _ => simp [cellLE] at h2
  | some x, some y, some z =>
    simp only [cellLE] at h1 h2 ⊢
    exact str_le_trans h1 h2

theorem cellLE_total (a b : Cell) : cellLE a b || cellLE b a := by
  match a, b with
  | none, none => rfl
  | some _, none => rfl
  | none, some _ => rfl
  | some x, some y =>
    simp only [cellLE]
    exact str_le_total x y

theorem str_lt_asymm {a b : String} (h : str_lt a b = true) : str_lt b a = false := by
  simp only [str_lt] at h ⊢
  exact chars_lt_asymm _ _ h

theorem rowLE_trans {a b c : NSRow} (h1 : rowLE a b) (h2 : rowLE b c) : rowLE a c := by
  simp only [rowLE] at h1 h2 ⊢
  by_cases hab : py_lower (astype_str a.parent) = py_lower (astype_str b.parent) <;>
    by_cases hbc : py_lower (astype_str b.parent) = py_lower (astype_str c.parent)
  · rw [if_pos hab] at h1
    rw [if_pos hbc] at h2
    rw [if_pos (hab.trans hbc)]
    exact cellLE_trans h1 h2
  · rw [if_neg hbc] at h2
    have hne : py_lower (astype_str a.parent) ≠ py_lower (astype_str c.parent) := by
      intro h
      rw [← hab] at hbc
      exact hbc h
    rw [if_neg hne, hab]
    exact h2
  · rw [if_neg hab] at h1
    have hne : py_lower (astype_str a.parent) ≠ py_lower (astype_str c.parent) := by
      intro h
      rw [hbc] at hab
      exact hab h
    rw [if_neg hne, ← hbc]
    exact h1
  · rw [if_neg hab] at h1
    rw [if_neg hbc] at h2
    simp only [str_lt] at h1 h2
    have hlt := chars_lt_trans _ _ _ h1 h2
    have hne : py_lower (astype_str a.parent) ≠ py_lower (astype_str c.parent) := by
      intro h
      rw [h] at hlt
      have hasym := chars_lt_asymm _ _ hlt
      rw [hlt] at hasym
      exact absurd hasym (by decide)
    rw [if_neg hne]
    simp only [str_lt]
    exact hlt

theorem rowLE_total (a b : NSRow) : rowLE a b || rowLE b a := by
  simp only [rowLE]
  by_cases hab : py_lower (astype_str a.parent) = py_lower (astype_str b.parent)
  · rw [if_pos hab, if_pos hab.symm]
    exact cellLE_total a.student b.student
  · rw [if_neg hab, if_neg (fun h => hab h.symm)]
    rcases h : str_lt (py_lower (astype_str a.parent)) (py_lower (astype_str b.parent)) with _ | _
    · rcases h2 : str_lt (py_lower (astype_str b.parent)) (py_lower (astype_str a.parent)) with _ | _
      · exact absurd (str_eq_of_data_eq (chars_lt_conn _ _ h h2)) hab
      · simp
    · simp

instance : IsTrans NSRow row_le :=
  ⟨fun _ _ _ h1 h2 => rowLE_trans h1 h2⟩

instance : IsTotal NSRow row_le :=
  ⟨fun a b => by
    have h := rowLE_total a b
    rcases Bool.or_eq_true_iff.mp h with h | h
    · exact Or.inl h
    · exact Or.inr h⟩

/-! ### Helper lemmas about normalize_and_sort -/

theorem py_strip_nan_ne : py_strip "nan" ≠ "" := by decide

theorem keep_eq_not_blank (r : NSRow) :
    ((!all_na r) && mask_keep r) = !row_blank r := by
  rcases r with ⟨p, s, t⟩
  rcases p with _ | p <;> rcases s with _ | s <;> rcases t with _ | t <;>
    simp [all_na, mask_keep, row_blank, astype_str, py_strip_nan_ne, bne, Bool.not_and]

theorem kept_rows_eq (df : DataFrame) :
    kept_rows df = (df.rows.map (project_row df)).filter (fun r => !row_blank r) := by
  unfold kept_rows
  rw [List.filter_filter]
  congr 1
  funext r
  rw [Bool.and_comm, keep_eq_not_blank r]

theorem normalize_rows_map_snd (df : DataFrame) :
    (normalize_and_sort df).rows.map Prod.snd = List.insertionSort row_le (kept_rows df) := by
  simp only [normalize_and_sort]
  exact List.enumFrom_map_snd 1 _

theorem normalize_rows_length (df : DataFrame) :
    (normalize_and_sort df).rows.length =
      df.rows.length - (df.rows.map (project_row df)).countP row_blank := by
  have h1 : (normalize_and_sort df).rows.length = (kept_rows df).length := by
    simp only [normalize_and_sort]
    rw [List.enumFrom_length]
    exact (List.perm_insertionSort row_le (kept_rows df)).length_eq
  rw [h1, kept_rows_eq, ← List.countP_eq_length_filter]
  have h2 := @List.length_eq_countP_add_countP _ row_blank (df.rows.map (project_row df))
  have hfe : (fun a => (decide ¬(row_blank a = true) : Bool)) = (fun r => !row_blank r) := by
    funext a
    by_cases h : row_blank a = true <;> simp [h]
  rw [hfe] at h2
  have h3 : (df.rows.map (project_row df)).length = df.rows.length := List.length_map _ _
  omega

/-! ### Claims C2, C3, C8 -/

/-- Input refuting the claimed sort order: one parent, students "B" and "a". -/
def c2_input : DataFrame :=
  { headers := ["Parent Name", "Student Name"],
    rows := [[some "a", some "B"], [some "a", some "a"]] }

/-- C2 counterexample: on `c2_input` the emitted rows are not sorted by the
order the claim states (case-insensitive by parent, then case-insensitive by
student): the script compares the raw student cells, so "B" (codepoint 66)
precedes "a" (codepoint 97) although case-insensitively "a" comes first. -/
theorem c2_counterexample :
    ¬ ((normalize_and_sort c2_input).rows.map Prod.snd).Pairwise
        (fun a b => spec_rowLE a b = true) := by decide

/-- C2 (amended): the table body of the HTML written by build_main_html has
exactly one tr per non-blank row (input rows minus blank rows), and the rows
appear sorted ascending by parent name case-insensitively, with ties broken by
the raw student cell: case-sensitive codepoint order, missing students last. -/
theorem c2_table_rows (df : DataFrame) :
    (build_main_rows (normalize_and_sort df)).length =
        df.rows.length - (df.rows.map (project_row df)).countP row_blank
      ∧ ((normalize_and_sort df).rows.map Prod.snd).Pairwise row_le := by
  constructor
  · simp only [build_main_rows, List.length_map]
    exact normalize_rows_length df
  · rw [normalize_rows_map_snd]
    exact List.sorted_insertionSort row_le (kept_rows df)

/-- Input refuting the claimed blank-row rule: both name cells missing, a
timestamp present. -/
def c3_input : DataFrame :=
  { headers := ["Parent Name", "Student Name", "Submitted On"],
    rows := [[none, none, some "2025-10-01"]] }

/-- C3 counterexample: on `c3_input` the returned row count is 1, not the
claimed input count minus blank count, which is 0: the single row has both
names empty in the sense of the claim (missing values), yet the script keeps
it because a missing value stringifies to "nan" before the emptiness test. -/
theorem c3_counterexample :
    (normalize_and_sort c3_input).rows.length ≠
      c3_input.rows.length -
        (c3_input.rows.map (project_row c3_input)).countP spec_row_blank := by
  decide

/-- C3 (amended): the returned row count equals the input row count minus the
blank rows, and the surviving rows are exactly the non-blank rows, none
dropped and none duplicated, where a row is blank exactly when all three
selected cells are missing, or parent and student are both present and strip
to the empty string; a missing name stringifies to "nan" and never counts as
empty. -/
theorem c3_row_count (df : DataFrame) :
    (normalize_and_sort df).rows.length =
        df.rows.length - (df.rows.map (project_row df)).countP row_blank
      ∧ ((normalize_and_sort df).rows.map Prod.snd).Perm
          ((df.rows.map (project_row df)).filter (fun r => !row_blank r)) := by
  refine ⟨normalize_rows_length df, ?_⟩
  rw [normalize_rows_map_snd, ← kept_rows_eq]
  exact List.perm_insertionSort row_le (kept_rows df)

/-- C8: the fuzzy column lookup succeeds exactly when some alias equals a
header lower-cased and stripped; a canonical column whose lookup failed reads
as the empty string in every row; and the returned dataframe always carries
exactly the four canonical headers. -/
theorem c8_fuzzy_columns (df : DataFrame) :
    (normalize_and_sort df).headers = ["No", "Parent Name", "Student Name", "Submitted On"]
      ∧ (∀ possible : List String, (find_col df.headers possible).isSome ↔
          ∃ p ∈ possible, ∃ c ∈ df.headers, py_strip (py_lower c) = py_lower p)
      ∧ (find_col df.headers parent_aliases = none →
          ∀ row, (project_row df row).parent = some "")
      ∧ (find_col df.headers student_aliases = none →
          ∀ row, (project_row df row).student = some "")
      ∧ (find_col df.headers time_aliases = none →
          ∀ row, (project_row df row).submitted = some "") := by
  refine ⟨rfl, ?_, ?_, ?_, ?_⟩
  · intro possible
    simp only [find_col, cols_lookup, List.findSome?_isSome_iff, List.find?_isSome,
      List.mem_reverse, beq_iff_eq, exists_prop]
  · intro hnone row
    simp only [project_row, hnone]
  · intro hnone row
    simp only [project_row, hnone]
  · intro hnone row
    simp only [project_row, hnone]

/-- Input whose single header matches no alias. -/
def c8_input : DataFrame := { headers := ["Phone"], rows := [[some "123"]] }

/-- C8 witness: on a dataframe with only a Phone column, the created parent
column reads as the empty string. -/
theorem c8_fuzzy_columns_witness :
    (project_row c8_input [some "123"]).parent = some "" :=
  (c8_fuzzy_columns c8_input).2.2.1 (by decide) [some "123"]

/-! ### Claims C1, C4 -/

/-- Sample face box: 100 x 106 pixels at (100, 100). -/
def sample_face : FaceRect := ⟨100, 100, 100, 106⟩

/-- Sample photo: 800 x 600 pixels. -/
def sample_img : ImgSize := ⟨800, 600⟩

theorem desired_face_height_eq : desired_face_height = 318 := by
  norm_num [desired_face_height, FACE_PERCENT, PASSPORT_HEIGHT]
  decide

theorem sample_proc_eq :
    process_image sample_img (some sample_face) =
      some { scale := 318 / 106, new_width := 2400, new_height := 1800,
             face_x := 450, face_y := 459, paste_x := 206 - 450, paste_y := 265 - 459,
             saved := ⟨437, 555⟩ } := by
  simp only [process_image, sample_img, sample_face, desired_face_height_eq,
    PASSPORT_WIDTH, PASSPORT_HEIGHT, add_stationery_border, make_background_white,
    border_width]
  norm_num

/-- C1 counterexample: an 800 x 600 input in which a face is detected (the
100 x 106 box at (100, 100)) produces a written image of 437 x 555 pixels,
not the claimed 413 x 531: add_stationery_border enlarges the passport canvas
by 12 pixels on every side before the save. -/
theorem c1_counterexample :
    (process_image sample_img (some sample_face)).map ProcResult.saved = some ⟨437, 555⟩
      ∧ ImgSize.mk 437 555 ≠ ⟨PASSPORT_WIDTH, PASSPORT_HEIGHT⟩ := by
  constructor
  · rw [sample_proc_eq]
    rfl
  · decide

/-- C1 (amended): for every input photo in which a face is detected (its box
height being positive, as detection boxes are), the image written by
process_image measures PASSPORT_WIDTH + 24 by PASSPORT_HEIGHT + 24 pixels,
that is 437 by 555: the 413 x 531 passport canvas plus the 12-pixel
stationery border added on every side just before saving. -/
theorem c1_saved_size (img : ImgSize) (f : FaceRect) (r : ProcResult)
    (h : process_image img (some f) = some r) :
    r.saved.width = PASSPORT_WIDTH + 2 * border_width
      ∧ r.saved.height = PASSPORT_HEIGHT + 2 * border_width
      ∧ r.saved = ⟨437, 555⟩ := by
  simp only [process_image] at h
  by_cases hh : f.h = 0
  · rw [if_pos hh] at h
    exact absurd h (by simp)
  · rw [if_neg hh] at h
    have hr := Option.some_inj.mp h
    subst hr
    exact ⟨rfl, rfl, rfl⟩

/-- C1 witness: the amended theorem applied to the sample run. -/
theorem c1_saved_size_witness :
    (ImgSize.mk 437 555).width = PASSPORT_WIDTH + 2 * border_width
      ∧ (ImgSize.mk 437 555).height = PASSPORT_HEIGHT + 2 * border_width
      ∧ ImgSize.mk 437 555 = ⟨437, 555⟩ :=
  c1_saved_size sample_img sample_face _ sample_proc_eq

/-- C4: on the success path the centered crop is one scaling and offset
computation: the scale is floor(531 * 0.6) / h, the scaled face center is the
floor of the original face center times the scale, and the paste offset puts
that point exactly on the canvas center (413 // 2, 531 // 2); when face
detection returns nothing, process_image returns False and writes no file. -/
theorem c4_centering (img : ImgSize) (f : FaceRect) (r : ProcResult)
    (h : process_image img (some f) = some r) :
    r.scale = (desired_face_height : ℚ) / (f.h : ℚ)
      ∧ (desired_face_height : ℤ) = ⌊(531 : ℚ) * (6 / 10)⌋
      ∧ r.face_x = ⌊((f.x + f.w / 2 : ℕ) : ℚ) * r.scale⌋
      ∧ r.face_y = ⌊((f.y + f.h / 2 : ℕ) : ℚ) * r.scale⌋
      ∧ r.paste_x + r.face_x = (PASSPORT_WIDTH : ℤ) / 2
      ∧ r.paste_y + r.face_y = (PASSPORT_HEIGHT : ℤ) / 2
      ∧ (∀ img2 : ImgSize, process_image img2 none = none) := by
  simp only [process_image] at h
  by_cases hh : f.h = 0
  · rw [if_pos hh] at h
    exact absurd h (by simp)
  · rw [if_neg hh] at h
    have hr := Option.some_inj.mp h
    subst hr
    refine ⟨rfl, ?_, rfl, rfl, by ring, by ring, fun img2 => rfl⟩
    rw [desired_face_height_eq]
    norm_num

/-- C4 witness: on the sample run the scaled face center lands on the canvas
center. -/
theorem c4_centering_witness :
    ((206 : ℤ) - 450) + 450 = (PASSPORT_WIDTH : ℤ) / 2
      ∧ ((265 : ℤ) - 459) + 459 = (PASSPORT_HEIGHT : ℤ) / 2 := by
  have h := c4_centering sample_img sample_face _ sample_proc_eq
  exact ⟨h.2.2.2.2.1, h.2.2.2.2.2.1⟩

/-! ### Claim C5 -/

theorem outcome_of_unique (df : DataFrame) (h : name_label_count df ≤ 1)
    (row : List Cell) :
    create_student_slide_outcome df row =
      (if (student_name df row).isNone then .skipped else .added) := by
  unfold create_student_slide_outcome
  rw [if_neg (by omega)]

theorem slide_counts_foldl (df : DataFrame) (raises : List Cell → Bool)
    (h : name_label_count df ≤ 1) :
    ∀ (rows : List (List Cell)) (acc : Nat × Nat × Nat),
      rows.foldl (slide_step df raises) acc =
        (acc.1 + rows.countP (fun row => !(student_name df row).isNone),
         acc.2.1 + rows.countP (fun row => (student_name df row).isNone),
         acc.2.2 + rows.countP (fun row => (student_name df row).isNone || !raises row))
  | [], acc => by simp
  | row :: rows, acc => by
    rw [List.foldl_cons, slide_counts_foldl df raises h rows]
    simp only [slide_step, outcome_of_unique df h row, List.countP_cons, Prod.mk.injEq]
    refine ⟨?_, ?_, ?_⟩ <;>
      by_cases hn : (student_name df row).isNone <;> by_cases hr : raises row <;>
        simp [hn, hr] <;> omega

/-- Input refuting the original claim: a CSV with both a Student Name and a
Name column, whose rename duplicates the Name label. -/
def c5_input : DataFrame :=
  { headers := ["Student Name", "Name"], rows := [[some "Alice", some "Bob"]] }

/-- C5 counterexample: on `c5_input` the single row has a non-missing Name,
yet the saved deck gets no slide and no skip warning is logged: after the
rename two columns are labelled Name, `student.get` returns a two-element
Series, and pd.isna raises ValueError before add_slide, caught by the broad
per-row except. -/
theorem c5_counterexample :
    (student_name c5_input [some "Alice", some "Bob"]).isNone = false
      ∧ (create_presentation_counts c5_input (fun _ => false)).1 ≠
          (c5_input.rows.filter (fun row => !(student_name c5_input row).isNone)).length
      ∧ (create_presentation_counts c5_input (fun _ => false)).2.1 = 0 := by decide

/-- C5 (amended): provided at most one column is labelled Name after the
rename (a CSV with both a Student Name and a Name column breaks this, making
pd.isna raise before any slide is added), each row whose Name is missing adds
no slide and logs one skip warning, and each row with a name adds exactly one
slide, add_slide preceding every remaining raise point, so the saved deck has
one slide per named row whatever the set of raising rows. -/
theorem c5_slides_per_named_row (df : DataFrame) (raises : List Cell → Bool)
    (h : name_label_count df ≤ 1) :
    (create_presentation_counts df raises).1 =
        (df.rows.filter (fun row => !(student_name df row).isNone)).length
      ∧ (create_presentation_counts df raises).2.1 =
        (df.rows.filter (fun row => (student_name df row).isNone)).length := by
  unfold create_presentation_counts
  rw [slide_counts_foldl df raises h]
  constructor <;> simp [List.countP_eq_length_filter]

/-- Input for the C5 witness: one uniquely labelled name column, one named
row and one unnamed row. -/
def c5_ok_input : DataFrame :=
  { headers := ["Student Name"], rows := [[some "A"], [none]] }

/-- C5 witness: the amended theorem applied to a well-formed CSV. -/
theorem c5_slides_per_named_row_witness :
    name_label_count c5_ok_input ≤ 1
      ∧ (create_presentation_counts c5_ok_input (fun _ => false)).1 =
          (c5_ok_input.rows.filter
            (fun row => !(student_name c5_ok_input row).isNone)).length
      ∧ (create_presentation_counts c5_ok_input (fun _ => false)).2.1 =
          (c5_ok_input.rows.filter
            (fun row => (student_name c5_ok_input row).isNone)).length :=
  ⟨by decide, c5_slides_per_named_row c5_ok_input (fun _ => false) (by decide)⟩

/-! ### Claim C6 -/

/-- C6 counterexample: with student_ppt_csv.csv missing, student_ppt.main
prints a warning and returns normally: no sys.exit, and process exit status
0, contradicting the claimed nonzero exit via sys.exit. -/
theorem c6_counterexample :
    (student_ppt_main false true).result = MainResult.normalReturn
      ∧ via_sys_exit (student_ppt_main false true).result = false
      ∧ exit_status (student_ppt_main false true).result = 0 := by decide

/-- C6 (amended): generate_parentlist_html exits with status 1 via sys.exit
when a named local CSV does not exist and when neither a CSV file nor both
sheet id and gid are supplied; student_ppt, with its CSV missing, warns and
returns from main without sys.exit, so that process exits with status 0 and
never reaches create_presentation. -/
theorem c6_fatal_exits (a : ParentlistArgs) :
    (py_truthy a.csv_file = true → a.csv_file_exists = false →
        parentlist_main a = .sysExit 1)
      ∧ (py_truthy a.csv_file = false →
          (py_truthy a.sheet_id = false ∨ py_truthy a.gid = false) →
          parentlist_main a = .sysExit 1)
      ∧ (∀ p : Bool, (student_ppt_main false p).result = .normalReturn
          ∧ exit_status (student_ppt_main false p).result = 0
          ∧ (student_ppt_main false p).warned_missing_csv = true
          ∧ (student_ppt_main false p).ran_create_presentation = false) := by
  refine ⟨?_, ?_, ?_⟩
  · intro h1 h2
    simp [parentlist_main, h1, h2]
  · intro h1 h2
    rcases h2 with h2 | h2 <;> simp [parentlist_main, h1, h2]
  · intro p
    simp [student_ppt_main, exit_status]

/-- C6 witness: concrete environments for both exit branches of the theorem. -/
theorem c6_fatal_exits_witness :
    parentlist_main ⟨some "list.csv", none, none, false, false, false⟩ = .sysExit 1
      ∧ parentlist_main ⟨none, none, none, true, true, true⟩ = .sysExit 1 := by
  constructor
  · exact (c6_fatal_exits _).1 (by decide) rfl
  · exact (c6_fatal_exits _).2.1 (by decide) (Or.inl (by decide))

/-! ### Claim C7 -/

theorem photo_counts_foldl (ok : String → Bool) :
    ∀ (files : List String) (acc : Nat × Nat),
      (files.foldl (photo_step ok) acc).1 + (files.foldl (photo_step ok) acc).2 =
        acc.1 + acc.2 + (files.filter is_image_file).length
  | [], acc => by simp
  | name :: files, acc => by
    rw [List.foldl_cons, photo_counts_foldl ok files]
    by_cases hi : is_image_file name <;> by_cases ho : ok name <;>
      simp [photo_step, hi, ho, List.filter_cons] <;> omega

theorem cert_rows_eq (headers : List String) (fails : Nat → Bool)
    (hname : headers.contains "Name" = true) :
    ∀ rows : List (Nat × List Cell),
      cert_rows headers fails rows =
        ((rows.filter (fun p => !fails p.1)).map
            (fun p => astype_str (get_cell headers p.2 "Name")),
         (rows.filter (fun p => fails p.1)).map Prod.fst,
         false)
  | [] => by simp [cert_rows]
  | (i, row) :: rows => by
    have hmem : "Name" ∈ headers := by simpa using hname
    rw [cert_rows, cert_rows_eq headers fails hname rows]
    by_cases hf : fails i <;> simp [hmem, hf, List.filter_cons]

/-- C7: per-item failures never abort a batch loop. In process_photos.main
every listed file with an image extension is attempted and success_count plus
error_count equals their number, whatever process_image returns (it catches
its own exceptions). In generate_certificates.main, when the CSV has a Name
column, the created certificates are exactly those of the non-failing
students, so a failure for one student never removes another; a missing Name
column instead raises outside the per-item guard and aborts the batch. -/
theorem c7_batch_guard (files : List String) (ok : String → Bool)
    (df : DataFrame) (fails : Nat → Bool)
    (hname : df.headers.contains "Name" = true) :
    (process_photos_main files ok).1 + (process_photos_main files ok).2 =
        (files.filter is_image_file).length
      ∧ certificates_main df fails =
          ((df.rows.enum.filter (fun p => !fails p.1)).map
              (fun p => astype_str (get_cell df.headers p.2 "Name")),
           (df.rows.enum.filter (fun p => fails p.1)).map Prod.fst,
           false) := by
  constructor
  · have h := photo_counts_foldl ok files (0, 0)
    simpa [process_photos_main] using h
  · exact cert_rows_eq df.headers fails hname df.rows.enum

/-- C7 witness: a two-file listing in which every attempt fails, and a
one-row CSV that has a Name column. -/
theorem c7_batch_guard_witness :
    (process_photos_main ["a.jpg", "notes.txt"] (fun _ => false)).1 +
        (process_photos_main ["a.jpg", "notes.txt"] (fun _ => false)).2 =
      ((["a.jpg", "notes.txt"] : List String).filter is_image_file).length :=
  (c7_batch_guard ["a.jpg", "notes.txt"] (fun _ => false)
    ⟨["Name"], [[some "A"]]⟩ (fun _ => false) (by decide)).1

/-! ### Claim C9 -/

/-- C9: student_ppt appends the run timestamp to the base output name,
producing Students_Presentation_timestamp.pptx, which differs from the fixed
OUTPUT_FILE path for every timestamp; the two HTML generators write to fixed
default paths. -/
theorem c9_timestamped_save (timestamp : String) :
    student_ppt_save_name timestamp = "Students_Presentation_" ++ timestamp ++ ".pptx"
      ∧ student_ppt_save_name timestamp ≠ OUTPUT_FILE
      ∧ searchable_default_output = "searchable_list_nowrap.html"
      ∧ parentlist_default_output = "ParentList_Marksheet.html" := by
  have hsplit : splitext OUTPUT_FILE = ("Students_Presentation", ".pptx") := by decide
  have h1 : student_ppt_save_name timestamp =
      "Students_Presentation_" ++ timestamp ++ ".pptx" := by
    unfold student_ppt_save_name
    rw [hsplit]
    rfl
  refine ⟨h1, ?_, rfl, rfl⟩
  rw [h1]
  intro hcontra
  have hlen := congrArg String.length hcontra
  have l1 : ("Students_Presentation_" : String).length = 22 := by decide
  have l2 : (".pptx" : String).length = 5 := by decide
  have l3 : OUTPUT_FILE.length = 26 := by decide
  simp only [String.length_append, l1, l2, l3] at hlen
  omega

/-! ### Claim C10 -/

theorem findIdx_eq_of_nodup (l : List String) (j : Nat) (hj : j < l.length)
    (h : l.Nodup) : l.findIdx? (fun c => c == l[j]) = some j := by
  induction l generalizing j with
  | nil => simp at hj
  | cons a tl ih =>
    cases j with
    | zero => simp [List.findIdx?_cons]
    | succ j =>
      have hj' : j < tl.length := by simpa using hj
      have hanotin : a ∉ tl := (List.nodup_cons.mp h).1
      have hne : ¬ ((a == tl[j]) = true) := by
        simp only [beq_iff_eq]
        intro hcontra
        apply hanotin
        rw [hcontra]
        exact List.getElem_mem hj'
      simp only [List.getElem_cons_succ]
      rw [List.findIdx?_cons, if_neg hne, List.findIdx?_succ,
        ih j hj' (List.nodup_cons.mp h).2]
      rfl

theorem get_cell_nodup (headers : List String) (row : List Cell) (j : Nat)
    (hj : j < headers.length) (h : headers.Nodup) :
    get_cell headers row headers[j] = row.getD j none := by
  unfold get_cell
  rw [findIdx_eq_of_nodup headers j hj h]

theorem render_row_nodup (headers : List String) (row : List Cell)
    (h : headers.Nodup) :
    render_row headers row =
      "<tr>" ++ String.join ((List.range headers.length).map
        (fun j => "<td>" ++ astype_str (row.getD j none) ++ "</td>")) ++ "</tr>" := by
  unfold render_row
  congr 2
  congr 1
  apply List.ext_getElem
  · simp
  · intro i h1 h2
    simp only [List.getElem_map, List.getElem_range]
    rw [get_cell_nodup headers row i (by simpa using h1) h]

/-- C10: generate_html neither sorts nor drops rows: with pairwise distinct
stripped headers (pandas would refuse the duplicate No insert otherwise), the
emitted table body has exactly one tr per input data row, in input order, the
first cell holding the 1-based position and the remaining cells the raw
values, interpolated with no escaping. -/
theorem c10_rows_in_order (df : DataFrame)
    (h : ("No" :: strip_headers df.headers).Nodup) :
    (generate_html_rows df).length = df.rows.length
      ∧ ∀ (i : Nat) (r : List Cell), df.rows[i]? = some r →
          (generate_html_rows df)[i]? = some
            ("<tr>" ++ String.join
              ((List.range (df.headers.length + 1)).map
                (fun j => "<td>" ++
                  astype_str ((some (toString (i + 1)) :: r).getD j none) ++ "</td>"))
              ++ "</tr>") := by
  have hlen : ("No" :: strip_headers df.headers).length = df.headers.length + 1 := by
    simp [strip_headers]
  constructor
  · simp [generate_html_rows, insert_no, List.enum_length]
  · intro i r hr
    simp only [generate_html_rows, insert_no, List.getElem?_map, List.enum_eq_enumFrom,
      List.getElem?_enumFrom, hr, Option.map_some', Nat.zero_add]
    rw [render_row_nodup _ _ h, hlen]

/-- Input for the C10 witness: one padded header, one row holding markup. -/
def c10_input : DataFrame := { headers := [" A "], rows := [[some "<b>&"]] }

/-- C10 witness: the emitted row keeps the markup characters of the cell
verbatim, showing the interpolation applies no HTML escaping, with the
1-based sequence number first. -/
theorem c10_rows_in_order_witness :
    (generate_html_rows c10_input)[0]? = some "<tr><td>1</td><td><b>&</td></tr>" := by
  have h := (c10_rows_in_order c10_input (by decide)).2 0 [some "<b>&"] rfl
  rw [h]
  rfl

end Malad
